import Mathlib

/-!
Verification development for the lazytrader copy-trading pipeline.

The Go sources are shallowly embedded as Lean definitions:

* `extractTradeSignal` embeds `PolymarketListener.extractTradeSignal`
  (internal/listener/polymarket_listener.go).
* `CreatePosition`, `CreateTrade`, `UpdateTradeStatus` embed the store
  operations of internal/database/database.go; the store is a `DBState`
  record, and the fallibility of each SQL statement is made explicit via an
  `ExecEnv` of per-call outcomes.
* `ExecuteTrade` embeds `Executor.ExecuteTrade` (internal/executor/executor.go).
* `processLogResult`, `processBlock`, `watchLoop` embed the listener's
  `processLog`, `processBlock` loop, and the `select` loop of `Start`.
* `rebuildTopTraders`, `refreshTopTraders`, `refreshStates` embed one tick of
  `updateTopTraders`, including the order in which the shared map is
  published and populated.

Machine integers that are Go `*big.Int` uint256 values are embedded as `Nat`
(the event fields are non-negative and the Go code performs no wrapping
arithmetic on them).  Go `float64` fields (amounts, prices in the store) are
embedded as `Rat`: on every code path considered here these values are only
stored and copied, never computed with, so the embedding is exact.
-/

namespace LazyTrader

/-- Embeds `OrderFilledEvent` of the listener: the decoded fields of an
`OrderFilled` log.  Hashes and addresses are strings; uint256 fields are
`Nat`. -/
structure OrderFilledEvent where
  orderHash : String
  maker : String
  taker : String
  makerAssetId : Nat
  takerAssetId : Nat
  makerAmountFilled : Nat
  takerAmountFilled : Nat
  fee : Nat
deriving DecidableEq

/-- Embeds the listener's `TradeSignal` struct.  In Go the pointer fields
`TokenID`, `Amount`, `Price` start out `nil`; they are embedded as
`Option Nat` with `none` for `nil`. -/
structure TradeSignal where
  trader : String
  side : String
  marketID : String
  tokenID : Option Nat
  amount : Option Nat
  price : Option Nat
  txHash : String
deriving DecidableEq

/-- The zero value `&TradeSignal{}` the Go function starts from. -/
def emptySignal : TradeSignal :=
  { trader := "", side := "", marketID := "", tokenID := none, amount := none, price := none, txHash := "" }

/-- Embeds `PolymarketListener.extractTradeSignal`: chooses the tracked
party (maker first), applies the asset-id-0 directional rule, then computes
the price for the BUY side as `takerAmountFilled * 1e6 / makerAmountFilled`
whenever `makerAmountFilled > 0` (integer division, as `big.Int.Div`). -/
def extractTradeSignal (e : OrderFilledEvent) (makerIsTop takerIsTop : Bool) :
    TradeSignal :=
  let s1 : TradeSignal :=
    if makerIsTop then
      if e.makerAssetId = 0 then
        { emptySignal with
            trader := e.maker, side := "BUY",
            tokenID := some e.takerAssetId, amount := some e.takerAmountFilled }
      else
        { emptySignal with
            trader := e.maker, side := "SELL",
            tokenID := some e.makerAssetId, amount := some e.makerAmountFilled }
    else if takerIsTop then
      if e.takerAssetId = 0 then
        { emptySignal with
            trader := e.taker, side := "BUY",
            tokenID := some e.makerAssetId, amount := some e.makerAmountFilled }
      else
        { emptySignal with
            trader := e.taker, side := "SELL",
            tokenID := some e.takerAssetId, amount := some e.takerAmountFilled }
    else emptySignal
  if s1.side = "BUY" ∧ 0 < e.makerAmountFilled then
    { s1 with price := some (e.takerAmountFilled * 1000000 / e.makerAmountFilled) }
  else s1

/-- The spec's price rule, stated over the chosen tracked party's own and
counter legs (maker legs when the maker is tracked, taker legs otherwise):
price is present exactly on a Buy with positive own amount, and then equals
`counterAmountFilled * 1e6 / ownAmountFilled`. -/
def specPriceRule (e : OrderFilledEvent) (makerIsTop takerIsTop : Bool) : Prop :=
  let s := extractTradeSignal e makerIsTop takerIsTop
  let own := if makerIsTop then e.makerAmountFilled else e.takerAmountFilled
  let counter := if makerIsTop then e.takerAmountFilled else e.makerAmountFilled
  (s.side = "BUY" ∧ 0 < own → s.price = some (counter * 1000000 / own)) ∧
  (¬ (s.side = "BUY" ∧ 0 < own) → s.price = none)

instance (e : OrderFilledEvent) (mT tT : Bool) : Decidable (specPriceRule e mT tT) := by
  unfold specPriceRule
  exact instDecidableAnd

/-- The spec's concrete Buy scenario: maker tracked, maker asset id 0,
taker asset id 77, maker amount filled 10,000,000, taker amount filled 20. -/
def sampleBuyEvent : OrderFilledEvent :=
  { orderHash := "0xoh", maker := "0xmaker", taker := "0xtaker",
    makerAssetId := 0, takerAssetId := 77,
    makerAmountFilled := 10000000, takerAmountFilled := 20, fee := 0 }

/-- A fill where only the taker is tracked and the taker is the buyer
(taker asset id 0): the tracked party's own leg is the taker leg. -/
def takerBuyEvent : OrderFilledEvent :=
  { orderHash := "0xoh2", maker := "0xmaker", taker := "0xtaker",
    makerAssetId := 77, takerAssetId := 0,
    makerAmountFilled := 20, takerAmountFilled := 10000000, fee := 0 }

/-- C4: for every fill event with at least one tracked party (the cases
`makerIsTop = true` with any `takerIsTop`, covering the both-tracked
tie-break, and `makerIsTop = false, takerIsTop = true`), the extracted
signal uses the maker side with priority and follows the directional rule:
own asset id 0 gives side BUY with the counter party's asset and amount,
and nonzero own asset id gives side SELL with the tracked party's own asset
and amount. -/
theorem extract_directional (e : OrderFilledEvent) (tT : Bool) :
    ((extractTradeSignal e true tT).trader = e.maker
      ∧ (e.makerAssetId = 0 →
          (extractTradeSignal e true tT).side = "BUY"
          ∧ (extractTradeSignal e true tT).tokenID = some e.takerAssetId
          ∧ (extractTradeSignal e true tT).amount = some e.takerAmountFilled)
      ∧ (e.makerAssetId ≠ 0 →
          (extractTradeSignal e true tT).side = "SELL"
          ∧ (extractTradeSignal e true tT).tokenID = some e.makerAssetId
          ∧ (extractTradeSignal e true tT).amount = some e.makerAmountFilled))
    ∧ ((extractTradeSignal e false true).trader = e.taker
      ∧ (e.takerAssetId = 0 →
          (extractTradeSignal e false true).side = "BUY"
          ∧ (extractTradeSignal e false true).tokenID = some e.makerAssetId
          ∧ (extractTradeSignal e false true).amount = some e.makerAmountFilled)
      ∧ (e.takerAssetId ≠ 0 →
          (extractTradeSignal e false true).side = "SELL"
          ∧ (extractTradeSignal e false true).tokenID = some e.takerAssetId
          ∧ (extractTradeSignal e false true).amount = some e.takerAmountFilled)) := by
  unfold extractTradeSignal
  by_cases hm : e.makerAssetId = 0 <;> by_cases ht : e.takerAssetId = 0 <;>
    simp [hm, ht] <;> split <;> simp

/-- C4 witness: the directional rule evaluated on the spec's concrete Buy
scenario (maker tracked, maker asset id 0, taker asset id 77, taker amount
filled 20). -/
theorem extract_directional_witness :
    sampleBuyEvent.makerAssetId = 0
    ∧ ((extractTradeSignal sampleBuyEvent true false).side = "BUY"
      ∧ (extractTradeSignal sampleBuyEvent true false).tokenID = some 77
      ∧ (extractTradeSignal sampleBuyEvent true false).amount = some 20) :=
  ⟨by decide, (extract_directional sampleBuyEvent false).1.2.1 (by decide)⟩

/-- C5 counterexample: for the taker-tracked Buy fill `takerBuyEvent`
(taker asset id 0, maker amount filled 20, taker amount filled 10,000,000)
the spec's price rule fails: the spec formula
`counterAmountFilled * 1e6 / ownAmountFilled` gives 2, but the code always
divides by the maker amount and produces 500,000,000,000. -/
theorem extract_price_spec_rule_cex :
    ¬ specPriceRule takerBuyEvent false true
    ∧ (extractTradeSignal takerBuyEvent false true).price = some 500000000000 := by
  constructor
  · decide
  · decide

/-- C5 amended: the price is computed only for the BUY side, always as
`takerAmountFilled * 1e6 / makerAmountFilled` guarded by
`makerAmountFilled > 0`, whichever party is tracked; this coincides with the
spec's own/counter formula exactly when the maker is the tracked party
(second conjunct), and is its inverse for a taker-tracked Buy. -/
theorem extract_price_maker_denominator (e : OrderFilledEvent) (mT tT : Bool) :
    ((extractTradeSignal e mT tT).price =
      if (extractTradeSignal e mT tT).side = "BUY" ∧ 0 < e.makerAmountFilled then
        some (e.takerAmountFilled * 1000000 / e.makerAmountFilled)
      else none)
    ∧ specPriceRule e true tT := by
  constructor
  · unfold extractTradeSignal
    cases mT <;> cases tT <;>
      by_cases hm : e.makerAssetId = 0 <;> by_cases ht : e.takerAssetId = 0 <;>
        simp [hm, ht, emptySignal] <;> split <;> simp_all [emptySignal]
  · unfold specPriceRule extractTradeSignal
    by_cases hm : e.makerAssetId = 0 <;>
      by_cases hp : 0 < e.makerAmountFilled <;> simp [hm, hp, emptySignal]

/-- C5 witness: the amended price rule evaluated on the spec's concrete Buy
scenario gives price 2 = 20 * 1e6 / 10,000,000. -/
theorem extract_price_maker_denominator_witness :
    (extractTradeSignal sampleBuyEvent true false).price = some 2 := by
  have h := (extract_price_maker_denominator sampleBuyEvent true false).2
  exact h.1 (by decide)

/-! ### Ledger store and execution orchestrator

Embeds internal/database/database.go (rows of the `positions` and `trades`
tables, and the operations `CreatePosition`, `CreateTrade`,
`UpdateTradeStatus`) and `Executor.ExecuteTrade` of
internal/executor/executor.go.  Each SQL statement and the on-chain
submission can fail; an `ExecEnv` fixes the outcome of each call of one
`ExecuteTrade` run, so theorems quantify over every failure pattern. -/

/-- Go `float64` values of the store: on every embedded path they are only
stored and copied, never used in arithmetic, so an exact rational stands
in. -/
abbrev F64 := Rat

/-- A row of the `positions` table (internal/database/database.go). -/
structure Position where
  id : Nat
  marketID : String
  tokenID : String
  outcome : String
  amount : F64
  avgPrice : F64
  currentPrice : F64
  status : String
deriving DecidableEq

/-- A row of the `trades` table (internal/database/database.go).  `txHash`
is NULL until set; the Go struct's zero value is the empty string. -/
structure Trade where
  id : Nat
  positionID : Nat
  traderAddress : String
  side : String
  amount : F64
  price : F64
  txHash : String
  status : String
deriving DecidableEq

/-- The SQLite store: the two tables the executor touches, plus the
AUTOINCREMENT counters. -/
structure DBState where
  positions : List Position
  trades : List Trade
  nextPositionID : Nat
  nextTradeID : Nat
deriving DecidableEq

/-- A freshly migrated store. -/
def emptyDB : DBState :=
  { positions := [], trades := [], nextPositionID := 1, nextTradeID := 1 }

/-- Embeds `DB.CreatePosition`: one INSERT into `positions` with
status `open` and `avg_price = current_price = price`. -/
def CreatePosition (db : DBState) (marketID tokenID outcome : String)
    (amount price : F64) : DBState × Position :=
  let p : Position :=
    { id := db.nextPositionID, marketID := marketID, tokenID := tokenID,
      outcome := outcome, amount := amount, avgPrice := price,
      currentPrice := price, status := "open" }
  ({ db with
      positions := db.positions ++ [p],
      nextPositionID := db.nextPositionID + 1 }, p)

/-- Embeds `DB.CreateTrade`: one INSERT into `trades` with status
`pending` and no transaction hash. -/
def CreateTrade (db : DBState) (positionID : Nat) (traderAddr side0 : String)
    (amount price : F64) : DBState × Trade :=
  let t : Trade :=
    { id := db.nextTradeID, positionID := positionID,
      traderAddress := traderAddr, side := side0, amount := amount,
      price := price, txHash := "", status := "pending" }
  ({ db with
      trades := db.trades ++ [t],
      nextTradeID := db.nextTradeID + 1 }, t)

/-- Embeds `DB.UpdateTradeStatus`: `UPDATE trades SET status, tx_hash WHERE
id = ?`, with no condition on the current status. -/
def UpdateTradeStatus (db : DBState) (tradeID : Nat) (status0 txHash : String) :
    DBState :=
  { db with
      trades := db.trades.map fun t =>
        if t.id = tradeID then { t with status := status0, txHash := txHash }
        else t }

/-- The outcome of each fallible call one `ExecuteTrade` run makes: the two
INSERTs, the on-chain submission, and the status UPDATE. -/
structure ExecEnv where
  createPositionFails : Bool
  createTradeFails : Bool
  submitFails : Bool
  updateStatusFails : Bool
deriving DecidableEq

/-- The run in which every call succeeds. -/
def allCallsSucceed : ExecEnv :=
  { createPositionFails := false, createTradeFails := false,
    submitFails := false, updateStatusFails := false }

/-- The run in which only the `trades` INSERT fails. -/
def envTradeInsertFails : ExecEnv :=
  { createPositionFails := false, createTradeFails := true,
    submitFails := false, updateStatusFails := false }

/-- Embeds `Executor.ExecuteTrade`'s argument struct `TradeRequest`.  It
carries no transaction hash and no order hash. -/
structure TradeRequest where
  marketID : String
  tokenID : String
  outcome : String
  side : String
  amount : F64
  price : F64
deriving DecidableEq

/-- The mock hash `fmt.Sprintf("0x%064x", 12345)` returned by
`submitTrade`. -/
def mockTxHash : String :=
  "0x0000000000000000000000000000000000000000000000000000000000003039"

/-- Embeds `Executor.ExecuteTrade`: create a Position, create a Trade
(each a separate store call, aborting on its error), submit on-chain, then
update the trade status to `failed` (submission error, update error
ignored) or `confirmed` (update error only logged; the run still counts as
a success, as in the Go code).  Returns the resulting store and whether the
run returned without error. -/
def ExecuteTrade (env : ExecEnv) (db : DBState) (req : TradeRequest) :
    DBState × Bool :=
  if env.createPositionFails then (db, false)
  else
    let r1 := CreatePosition db req.marketID req.tokenID req.outcome
      req.amount req.price
    if env.createTradeFails then (r1.1, false)
    else
      let r2 := CreateTrade r1.1 r1.2.id "" req.side req.amount req.price
      if env.submitFails then
        (if env.updateStatusFails then r2.1
         else UpdateTradeStatus r2.1 r2.2.id "failed" "", false)
      else
        (if env.updateStatusFails then r2.1
         else UpdateTradeStatus r2.1 r2.2.id "confirmed" mockTxHash, true)

/-- A concrete trade request mirroring the spec's Buy scenario. -/
def req77 : TradeRequest :=
  { marketID := "mkt", tokenID := "77", outcome := "YES", side := "buy",
    amount := 2, price := 1 }

/-- C1 as stated, at a delivery: executing the same request twice from a
fresh store leaves exactly one Trade row. -/
def C1ClaimAt (req : TradeRequest) : Prop :=
  (ExecuteTrade allCallsSucceed
    (ExecuteTrade allCallsSucceed emptyDB req).1 req).1.trades.length = 1

/-- C1 counterexample: `ExecuteTrade` performs no idempotency check, so
delivering the same request twice creates two Trade rows, not one. -/
theorem executeTrade_duplicate_cex :
    ¬ C1ClaimAt req77
    ∧ (ExecuteTrade allCallsSucceed
        (ExecuteTrade allCallsSucceed emptyDB req77).1 req77).1.trades.length
        = 2 := by
  constructor
  · unfold C1ClaimAt
    decide
  · decide

/-- C1 amended: `ExecuteTrade` performs no idempotency check of any kind
(the request does not even carry the transaction or order hash): whenever
the two INSERTs succeed it appends exactly one new Trade row regardless of
what the store already contains, so each re-delivery adds a further row. -/
theorem executeTrade_appends_one_trade (env : ExecEnv) (db : DBState)
    (req : TradeRequest) :
    (ExecuteTrade env db req).1.trades.length =
      db.trades.length +
        (if env.createPositionFails ∨ env.createTradeFails then 0 else 1) := by
  unfold ExecuteTrade
  by_cases h1 : env.createPositionFails <;>
    by_cases h2 : env.createTradeFails <;>
      by_cases h3 : env.submitFails <;>
        by_cases h4 : env.updateStatusFails <;>
          simp [h1, h2, h3, h4, CreatePosition, CreateTrade, UpdateTradeStatus]

/-- C2 as stated, at a run from a fresh store: the Position and the Trade
persist as one unit — both rows exist or neither does. -/
def C2ClaimAt (env : ExecEnv) : Prop :=
  ((ExecuteTrade env emptyDB req77).1.positions.length = 1
    ∧ 1 ≤ (ExecuteTrade env emptyDB req77).1.trades.length)
  ∨ ((ExecuteTrade env emptyDB req77).1.positions.length = 0
    ∧ (ExecuteTrade env emptyDB req77).1.trades.length = 0)

/-- C2 counterexample: in the run where only the `trades` INSERT fails, the
Position row persists with no Trade row — a Position-without-Trade state. -/
theorem executeTrade_atomicity_cex :
    ¬ C2ClaimAt envTradeInsertFails
    ∧ (ExecuteTrade envTradeInsertFails emptyDB req77).1.positions.length = 1
    ∧ (ExecuteTrade envTradeInsertFails emptyDB req77).1.trades.length = 0 := by
  refine ⟨?_, by decide, by decide⟩
  unfold C2ClaimAt
  decide

/-- C2 amended: Position and Trade creation are two separate store calls
with no shared transaction; when the trade INSERT fails the run aborts with
the freshly inserted Position left behind, for every prior store content. -/
theorem executeTrade_orphan_position (db : DBState) (req : TradeRequest) :
    (ExecuteTrade envTradeInsertFails db req).1.positions.length
      = db.positions.length + 1
    ∧ (ExecuteTrade envTradeInsertFails db req).1.trades.length
      = db.trades.length := by
  simp [ExecuteTrade, envTradeInsertFails, CreatePosition]

/-- A Trade row already in the terminal status `confirmed`. -/
def confirmedTrade : Trade :=
  { id := 1, positionID := 1, traderAddress := "0xtrader", side := "buy",
    amount := 2, price := 1, txHash := "0xdone", status := "confirmed" }

/-- A store holding only `confirmedTrade`. -/
def dbWithConfirmed : DBState :=
  { positions := [], trades := [confirmedTrade],
    nextPositionID := 2, nextTradeID := 2 }

/-- C3 as stated, at a concrete store: a status update against a trade that
already reached `confirmed` is a no-op (the model's `UpdateTradeStatus`
never rejects, matching the unconditional SQL UPDATE). -/
def C3ClaimAt : Prop :=
  (UpdateTradeStatus dbWithConfirmed 1 "pending" "").trades
    = dbWithConfirmed.trades

/-- C3 counterexample: updating the already confirmed trade to `pending`
is neither rejected nor a no-op — the row's status really becomes
`pending`, so `confirmed` is not terminal at the store level. -/
theorem updateTradeStatus_terminal_cex :
    ¬ C3ClaimAt
    ∧ (UpdateTradeStatus dbWithConfirmed 1 "pending" "").trades.map
        Trade.status = ["pending"] := by
  constructor
  · unfold C3ClaimAt
    decide
  · decide

/-- C3 amended: `UpdateTradeStatus` unconditionally overwrites the status
and transaction hash of every row with the given id, whatever status the
row currently has; terminal states are not protected (the executor itself
only ever requests pending to confirmed or pending to failed, but nothing
enforces this at the store). -/
theorem updateTradeStatus_overwrites (db : DBState) (tid : Nat) (st tx : String)
    (t : Trade) (ht : t ∈ db.trades) (hid : t.id = tid) :
    { t with status := st, txHash := tx } ∈ (UpdateTradeStatus db tid st tx).trades := by
  unfold UpdateTradeStatus
  have h2 := List.mem_map_of_mem
    (fun t : Trade => if t.id = tid then { t with status := st, txHash := tx } else t) ht
  simpa [hid] using h2

/-- C3 witness: the amended overwrite theorem applied to the confirmed
trade of `dbWithConfirmed`. -/
theorem updateTradeStatus_overwrites_witness :
    confirmedTrade ∈ dbWithConfirmed.trades
    ∧ { confirmedTrade with status := "pending", txHash := "" }
        ∈ (UpdateTradeStatus dbWithConfirmed 1 "pending" "").trades :=
  ⟨by decide,
    updateTradeStatus_overwrites dbWithConfirmed 1 "pending" "" confirmedTrade
      (by decide) rfl⟩

/-! ### Chain watcher

Embeds the listener's `processLog` (dispatch on `Topics[0]`), the per-block
log loop of `processBlock`, and the `select` loop of `Start`
(internal/listener/polymarket_listener.go).  Topic hashes are abstracted to
naturals; the two distinct keccak-256 event signatures become the distinct
constants `orderFilledSig` and `ordersMatchedSig`.  Whether the ABI unpack
of a log's opaque data payload succeeds is recorded on the log record
itself (`dataDecodes`), since the byte-level ABI decoder is external
library code. -/

/-- A raw chain log record as the listener receives it. -/
structure LogRec where
  topics : List Nat
  dataDecodes : Bool
  txHash : String
deriving DecidableEq

/-- Stands for `keccak256("OrderFilled(...)")`. -/
def orderFilledSig : Nat := 1

/-- Stands for `keccak256("OrdersMatched(...)")`; distinct from
`orderFilledSig`. -/
def ordersMatchedSig : Nat := 2

/-- Embeds `processLog`: reads `vLog.Topics[0]` with no length check
(`none` models the out-of-bounds panic on an empty topic list), then
dispatches: an `OrderFilled` log succeeds iff its data payload unpacks
(`processOrderFilled`), and `OrdersMatched` or unrecognized topics return
nil.  `some b` means the call returned, with `b = true` for no error. -/
def processLogResult (l : LogRec) : Option Bool :=
  match l.topics with
  | [] => none
  | t0 :: _ => if t0 = orderFilledSig then some l.dataDecodes else some true

/-- Embeds the log loop of `processBlock`: each log is passed to
`processLog`; on the first error the loop logs and breaks.  Returns the
logs that were actually attempted. -/
def processBlock : List LogRec → List LogRec
  | [] => []
  | l :: rest =>
    if processLogResult l = some true then l :: processBlock rest else [l]

/-- An `OrderFilled` log whose data payload fails to unpack. -/
def lBad : LogRec := { topics := [orderFilledSig], dataDecodes := false, txHash := "0x1" }

/-- An `OrderFilled` log that processes cleanly. -/
def lGood : LogRec := { topics := [orderFilledSig], dataDecodes := true, txHash := "0x2" }

/-- C6 as stated, at a concrete block: after a decode failure on the first
log, the remaining log of the block is still processed. -/
def C6ClaimAt : Prop := lGood ∈ processBlock [lBad, lGood]

/-- C6 counterexample: the loop `break`s on the failing first log, so the
healthy second log of the same block is never processed. -/
theorem processBlock_break_cex :
    ¬ C6ClaimAt ∧ processBlock [lBad, lGood] = [lBad] := by
  constructor
  · unfold C6ClaimAt
    decide
  · decide

/-- C6 amended: a decode or processing failure on one log stops the whole
per-block loop: exactly the clean prefix and the first failing log are
attempted, and every later log of the block is skipped.  (`processBlock`
still returns nil afterwards, so the failure is not fatal to the watch
loop itself.) -/
theorem processBlock_stops_at_failure (pre post : List LogRec) (l : LogRec)
    (hpre : ∀ p ∈ pre, processLogResult p = some true)
    (hl : processLogResult l ≠ some true) :
    processBlock (pre ++ l :: post) = pre ++ [l] := by
  induction pre with
  | nil => simp [processBlock, hl]
  | cons p ps ih =>
    have hp := hpre p (List.mem_cons_self p ps)
    have hps : ∀ q ∈ ps, processLogResult q = some true :=
      fun q hq => hpre q (List.mem_cons_of_mem p hq)
    simp [processBlock, hp, ih hps]

/-- C6 witness: the amended loop behavior on the concrete block
`[lGood, lBad, lGood]`. -/
theorem processBlock_stops_witness :
    (∀ p ∈ [lGood], processLogResult p = some true)
    ∧ processLogResult lBad ≠ some true
    ∧ processBlock ([lGood] ++ lBad :: [lGood]) = [lGood] ++ [lBad] :=
  ⟨by decide, by decide,
    processBlock_stops_at_failure [lGood] [lGood] lBad (by decide) (by decide)⟩

/-- One arrival in the `select` loop of `Start`: context cancellation, an
error on the subscription channel, or a new block header. -/
inductive WatchEvent where
  | ctxDone
  | subErr
  | header (blockNum : Nat)
deriving DecidableEq

/-- Embeds the `select` loop of `Start` over a sequence of arrivals:
returns the block numbers handed to `processBlock` and whether the loop
returned (terminating `Start`).  `ctx.Done` returns `ctx.Err()`; a
subscription error is logged and returned; a header is processed and the
loop continues. -/
def watchLoop : List WatchEvent → List Nat × Bool
  | [] => ([], false)
  | WatchEvent.ctxDone :: _ => ([], true)
  | WatchEvent.subErr :: _ => ([], true)
  | WatchEvent.header n :: rest =>
    let r := watchLoop rest
    (n :: r.1, r.2)

/-- C7 as stated, at a concrete arrival sequence: after a subscription
error the watch loop keeps running (resubscribes) and still processes the
next block. -/
def C7ClaimAt : Prop :=
  (watchLoop [WatchEvent.subErr, WatchEvent.header 5]).2 = false
  ∨ 5 ∈ (watchLoop [WatchEvent.subErr, WatchEvent.header 5]).1

/-- C7 counterexample: a subscription error makes `Start` return; the
block arriving next is never processed, and no resubscribe happens. -/
theorem watchLoop_subErr_cex :
    ¬ C7ClaimAt ∧ watchLoop [WatchEvent.subErr, WatchEvent.header 5] = ([], true) := by
  constructor
  · unfold C7ClaimAt
    decide
  · decide

/-- C7 amended: on a subscription error the watch loop terminates
immediately with no block processed afterwards — there is no
bounded-backoff resubscribe anywhere in `Start`. -/
theorem watchLoop_subErr_returns (rest : List WatchEvent) :
    watchLoop (WatchEvent.subErr :: rest) = ([], true) := rfl

/-- C10: `processLog` hits the out-of-bounds access on `Topics[0]` exactly
on the logs with an empty topic list, and is total on every other log —
the implicit precondition the code relies on. -/
theorem processLog_topics_oob (l : LogRec) :
    processLogResult l = none ↔ l.topics = [] := by
  cases h : l.topics with
  | nil => simp [processLogResult, h]
  | cons a as =>
    simp only [processLogResult, h]
    split <;> simp

/-! ### Tracked trader set

Embeds one tick of `updateTopTraders` (internal/listener/
polymarket_listener.go) and the leaderboard ingestion of
internal/ingestion/ingestion.go.  The listener's `map[string]bool` with
`true` values is a `Finset String`; the ingestion's `top_traders` table is
a list of (address, pnl) rows.  The estimated win rate computed by the
ingestion is floating-point arithmetic on values no embedded claim reads,
so the row model omits it. -/

/-- The map the listener builds on a successful fetch: a fresh empty map
filled with the lower-cased fetched addresses. -/
def rebuildTopTraders (traders : List String) : Finset String :=
  traders.foldl (fun s t => insert t.toLower s) ∅

/-- One tick of `updateTopTraders`, seen end-to-end: `none` models a
`GetTopTraders` error (the tick `continue`s, keeping the old set); a
fetched list replaces the set wholesale with the rebuilt map. -/
def refreshTopTraders (fetched : Option (List String)) (current : Finset String) :
    Finset String :=
  match fetched with
  | none => current
  | some traders => rebuildTopTraders traders

/-- A decoded Polymarket leaderboard entry (the fields the DB update
reads). -/
structure LeaderboardEntry where
  proxyWallet : String
  pnl : Rat
deriving DecidableEq

/-- Embeds `DB.UpsertTopTrader`: INSERT with ON CONFLICT(address) DO
UPDATE. -/
def upsertTopTrader (rows : List (String × Rat)) (addr : String) (pnl : Rat) :
    List (String × Rat) :=
  if rows.any fun r => r.1 = addr then
    rows.map fun r => if r.1 = addr then (addr, pnl) else r
  else rows ++ [(addr, pnl)]

/-- Embeds the store effect of `updateLeaderboardFromAPI`: an empty entry
list returns before touching the table; otherwise every entry at or above
the profit threshold is upserted. -/
def updateLeaderboardFromAPI (minProfit : Rat) (entries : List LeaderboardEntry)
    (rows : List (String × Rat)) : List (String × Rat) :=
  if entries.isEmpty then rows
  else entries.foldl
    (fun acc e =>
      if minProfit ≤ e.pnl then upsertTopTrader acc e.proxyWallet e.pnl else acc)
    rows

/-- C8 as stated, at a concrete refresh: a tick whose fetched ranking list
is empty leaves the previously published nonempty set unchanged. -/
def C8ClaimAt : Prop :=
  refreshTopTraders (some []) {"0xa"} = ({"0xa"} : Finset String)

/-- C8 counterexample: a tick that fetches an empty list rebuilds the map
from nothing, replacing the nonempty published set with the empty set. -/
theorem refreshTopTraders_empty_cex :
    ¬ C8ClaimAt ∧ refreshTopTraders (some []) {"0xa"} = ∅ := by
  constructor
  · unfold C8ClaimAt
    decide
  · decide

/-- C8 amended: an empty fetched list wipes the published set (the tick is
not a no-op); only a fetch error leaves the previous set untouched.  At
the ingestion layer, by contrast, an empty API result really is a no-op on
the `top_traders` table. -/
theorem refreshTopTraders_empty_wipes (prior : Finset String) (minProfit : Rat)
    (rows : List (String × Rat)) :
    refreshTopTraders (some []) prior = ∅
    ∧ refreshTopTraders none prior = prior
    ∧ updateLeaderboardFromAPI minProfit [] rows = rows := by
  refine ⟨rfl, rfl, ?_⟩
  simp [updateLeaderboardFromAPI]

/-- The successive values of the shared `topTraders` field during one
successful tick of `updateTopTraders`, in program order: the fresh empty
map is assigned to the field first, then each lower-cased address is
inserted into the already published map. -/
def refreshStatesFrom (s : Finset String) : List String → List (Finset String)
  | [] => []
  | t :: ts => insert t.toLower s :: refreshStatesFrom (insert t.toLower s) ts

/-- All states a concurrent reader of `l.topTraders` can observe during
the tick (the Go code swaps the reference before populating the map). -/
def refreshStates (traders : List String) : List (Finset String) :=
  ∅ :: refreshStatesFrom ∅ traders

/-- C9 as stated, at a concrete refresh: a reader during an in-progress
refresh (prior generation `{"0xa"}`, new generation from `["0xb"]`) never
observes a set smaller than the complete prior generation. -/
def C9ClaimAt : Prop :=
  ∀ s ∈ refreshStates ["0xb"], ({"0xa"} : Finset String).card ≤ s.card

/-- C9 counterexample: the freshly assigned empty map is a published,
observable state, and it is smaller than the nonempty prior generation. -/
theorem refreshStates_partial_cex :
    ¬ C9ClaimAt ∧ ∅ ∈ refreshStates ["0xb"]
    ∧ (∅ : Finset String).card < ({"0xa"} : Finset String).card := by
  refine ⟨?_, by decide, by decide⟩
  unfold C9ClaimAt
  decide

/-- The last state of the in-place population equals a fold of inserts
over the fetched list. -/
theorem refreshStatesFrom_last (ts : List String) : ∀ s : Finset String,
    (refreshStatesFrom s ts).getLastD s
      = ts.foldl (fun a t => insert t.toLower a) s := by
  induction ts with
  | nil => intro s; rfl
  | cons t ts ih =>
    intro s
    simp only [refreshStatesFrom, List.getLastD_cons, List.foldl]
    exact ih (insert t.toLower s)

/-- C9 amended: the refresh publishes the fresh empty map before any entry
is inserted — the empty set is the first observable state of every
successful tick — and only the final observable state equals the wholesale
rebuilt set; intermediate readers can observe any partially filled map. -/
theorem refresh_publishes_in_place (traders : List String) :
    (refreshStates traders).head? = some ∅
    ∧ (refreshStates traders).getLastD ∅ = rebuildTopTraders traders := by
  constructor
  · rfl
  · unfold refreshStates rebuildTopTraders
    rw [List.getLastD_cons]
    exact refreshStatesFrom_last traders ∅

end LazyTrader
